import Mathlib

/-!
Verification of the `apertus_chat` client library.

This file gives a shallow embedding of the parts of the library that the
specification talks about:

* `src/apertus/types.py` — the pydantic request/response models
  (`ChatCompletionChunk`, `ChatChoice`, `StreamEvent`,
  `ChatCompletionRequest`, ...) together with their validation and
  `model_dump(exclude_none=True)` serialization semantics;
* `src/apertus/client.py` — the per-line streaming decoder of
  `_ChatCompletions.stream` and `_AsyncChatCompletions.stream`, and the
  request payload construction of `create`/`stream`;
* `src/apertus/http.py` — the error mapping of `SyncHTTP._raise_api_error`
  and `SyncHTTP._raise_api_error_object` / `post_stream`, and the
  constructor key resolution of `_BaseHTTP.__init__`.

External collaborators are modelled at their interfaces: `json.loads`
(the Python standard library JSON decoder) is a parameter
`jl : String → Option Json` of the decoder (`none` models
`json.JSONDecodeError`); the transport's line iterator is a list of
`LineItem`s where `LineItem.fail` marks the point at which the underlying
iterator raises; the environment lookup `os.getenv` is an
`Option String` parameter.  Python numeric values are carried opaquely
(the client never computes with them), so float-typed fields are embedded
with an integer carrier.
-/

set_option autoImplicit false

/-- Values of the Python/JSON data model: the possible results of
`json.loads` and the values stored in pydantic models' untyped fields. -/
inductive Json where
  | null
  | bool (b : Bool)
  | num (n : Int)
  | str (s : String)
  | arr (elems : List Json)
  | obj (fields : List (String × Json))
deriving Repr, Inhabited

/-- Python truthiness of a JSON-like value: `None`, `False`, `0`, `""`,
`[]` and empty dicts are falsy, everything else truthy.  Used by the
`or`-chains in the source (`data.get("error") or ...`). -/
def Json.isTruthy : Json → Bool
  | .null => false
  | .bool b => b
  | .num n => n != 0
  | .str s => s != ""
  | .arr elems => !elems.isEmpty
  | .obj fields => !fields.isEmpty

/-- Python attribute-style `data.get(k)`: defined (returning the value,
or `None` for a missing key) only when `data` is a dict; on any other
value the call raises `AttributeError`, modelled as `none`. -/
def Json.pyGet : Json → String → Option Json
  | .obj fields, k =>
    some (match fields.lookup k with
          | some v => v
          | none => .null)
  | _, _ => none

/-! ## Pydantic models of `src/apertus/types.py` (response side) -/

/-- `ChatChoiceDelta` of `types.py`: `role: Optional[str]`,
`content: Optional[str]`. -/
structure ChatChoiceDelta where
  role : Option String
  content : Option String
deriving Repr, DecidableEq

/-- `ChatChoiceMessage` of `types.py`: `role: str`, `content: str`. -/
structure ChatChoiceMessage where
  role : String
  content : String
deriving Repr, DecidableEq

/-- `ChatChoice` of `types.py`. -/
structure ChatChoice where
  index : Int
  message : Option ChatChoiceMessage
  finish_reason : Option String
  delta : Option ChatChoiceDelta
deriving Repr, DecidableEq

/-- `ChatCompletionChunk` of `types.py`: every metadata field is
optional, `choices` is required. -/
structure ChatCompletionChunk where
  id : Option String
  object : Option String
  created : Option Int
  model : Option String
  choices : List ChatChoice
deriving Repr, DecidableEq

/-- `StreamEvent` of `types.py`. -/
structure StreamEvent where
  delta : Option String
  choice_index : Int
  raw : ChatCompletionChunk
deriving Repr, DecidableEq

/-- Validation of an `Optional[str]` pydantic field from the looked-up
JSON value (`none` = key absent).  Absent and `null` become `none`; a
string is accepted; any other value is a `ValidationError` (outer
`none`). -/
def optStrField : Option Json → Option (Option String)
  | none => some none
  | some .null => some none
  | some (.str s) => some (some s)
  | some _ => none

/-- Validation of an `Optional[int]` pydantic field. -/
def optIntField : Option Json → Option (Option Int)
  | none => some none
  | some .null => some none
  | some (.num n) => some (some n)
  | some _ => none

/-- Validation of a required `int` pydantic field. -/
def intField : Option Json → Option Int
  | some (.num n) => some n
  | _ => none

/-- Validation of an optional nested-model pydantic field, given the
validator of the nested model. -/
def optModelField {α : Type} (validate : Json → Option α) : Option Json → Option (Option α)
  | none => some none
  | some .null => some none
  | some j => (validate j).map some

/-- `ChatChoiceDelta.model_validate`: input must be a dict; both fields
optional strings. -/
def ChatChoiceDelta.model_validate : Json → Option ChatChoiceDelta
  | .obj fields => do
    let role ← optStrField (fields.lookup "role")
    let content ← optStrField (fields.lookup "content")
    some ⟨role, content⟩
  | _ => none

/-- `ChatChoiceMessage.model_validate`: input must be a dict with
required string fields `role` and `content`. -/
def ChatChoiceMessage.model_validate : Json → Option ChatChoiceMessage
  | .obj fields => do
    let role ← match fields.lookup "role" with
      | some (.str s) => some s
      | _ => none
    let content ← match fields.lookup "content" with
      | some (.str s) => some s
      | _ => none
    some ⟨role, content⟩
  | _ => none

/-- `ChatChoice.model_validate`: `index` required, the rest optional. -/
def ChatChoice.model_validate : Json → Option ChatChoice
  | .obj fields => do
    let index ← intField (fields.lookup "index")
    let message ← optModelField ChatChoiceMessage.model_validate (fields.lookup "message")
    let fin ← optStrField (fields.lookup "finish_reason")
    let delta ← optModelField ChatChoiceDelta.model_validate (fields.lookup "delta")
    some ⟨index, message, fin, delta⟩
  | _ => none

/-- `ChatCompletionChunk.model_validate`: the input must be a dict whose
`choices` key holds a list of valid `ChatChoice`s; the metadata fields
are optional.  A non-dict input or a missing/ill-typed `choices` key is
a `ValidationError` (`none`). -/
def ChatCompletionChunk.model_validate : Json → Option ChatCompletionChunk
  | .obj fields => do
    let id ← optStrField (fields.lookup "id")
    let object ← optStrField (fields.lookup "object")
    let created ← optIntField (fields.lookup "created")
    let model ← optStrField (fields.lookup "model")
    let choices ← match fields.lookup "choices" with
      | some (.arr xs) => xs.mapM ChatChoice.model_validate
      | _ => none
    some ⟨id, object, created, model, choices⟩
  | _ => none

/-! ## Python string primitives

The decoder and the constructor use Python's `str.strip`,
`str.startswith`, slicing and `str.rstrip`.  Python strings are
character sequences, so these are embedded as functions on the
character list underlying a `String`. -/

/-- Python `s.strip()`: remove leading and trailing whitespace
characters. -/
def pyStrip (s : String) : String :=
  ⟨((s.data.dropWhile Char.isWhitespace).reverse.dropWhile Char.isWhitespace).reverse⟩

/-- Python `s.startswith(pre)`. -/
def pyStartsWith (s pre : String) : Bool :=
  pre.data.isPrefixOf s.data

/-- Python slicing `s[n:]` on a string. -/
def pyDropChars (s : String) (n : Nat) : String :=
  ⟨s.data.drop n⟩

/-- Python `s.rstrip(c)` for a single strip character. -/
def pyRStripChar (s : String) (c : Char) : String :=
  ⟨(s.data.reverse.dropWhile (· = c)).reverse⟩

/-! ## The streaming decoder of `src/apertus/client.py` -/

/-- One item produced by the transport's line iterator
(`SyncHTTP.post_stream` / `AsyncHTTP.post_stream`): either a text line,
or the point at which the underlying iterator raises a transport
error. -/
inductive LineItem where
  | line (s : String)
  | fail
deriving Repr

/-- How a run of the decoder loop ends, as observed by the caller. -/
inductive StreamOutcome where
  | done
  | transportError
  | validationError (offending : Json)
deriving Repr

/-- Payload extraction of `_ChatCompletions.stream` (client.py lines
52-56): strip surrounding whitespace, strip a leading `data:` framing
marker if present, and re-strip. -/
def framePayload (s : String) : String :=
  let text := pyStrip s
  if pyStartsWith text "data:" then pyStrip (pyDropChars text 5) else text

/-- Delta extraction of `_ChatCompletions.stream` (client.py lines
64-68): the first choice's `delta.content` when the choice list is
nonempty, the delta object is not `None` and its `content` is not
`None`; otherwise `None`. -/
def chunkDelta (chunk : ChatCompletionChunk) : Option String :=
  match chunk.choices with
  | [] => none
  | ch0 :: _ =>
    match ch0.delta with
    | none => none
    | some d => d.content

/-- The per-line loop of `_ChatCompletions.stream` (client.py lines
49-69), run to completion over a line source.  `jl` embeds
`json.loads` (`none` = `json.JSONDecodeError`).  Returns the list of
yielded `StreamEvent`s in order, together with how the loop ended: a
`break` on the `[DONE]` sentinel and exhaustion of the source both give
`.done`; a transport error or a pydantic `ValidationError` from
`ChatCompletionChunk.model_validate` abort the loop and propagate. -/
def streamDecode (jl : String → Option Json) : List LineItem → List StreamEvent × StreamOutcome
  | [] => ([], .done)
  | LineItem.fail :: _ => ([], .transportError)
  | LineItem.line s :: rest =>
    if pyStrip s = "" then streamDecode jl rest
    else if framePayload s = "[DONE]" then ([], .done)
    else
      match jl (framePayload s) with
      | none => streamDecode jl rest
      | some obj =>
        match ChatCompletionChunk.model_validate obj with
        | none => ([], .validationError obj)
        | some chunk =>
          ({ delta := chunkDelta chunk, choice_index := 0, raw := chunk } ::
             (streamDecode jl rest).1,
           (streamDecode jl rest).2)

/-- The per-line loop of `_AsyncChatCompletions.stream` (client.py
lines 82-102), transcribed separately from the sync loop so that the
equivalence of the two surfaces is a theorem about two independent
definitions. -/
def streamDecodeAsync (jl : String → Option Json) : List LineItem → List StreamEvent × StreamOutcome
  | [] => ([], .done)
  | LineItem.fail :: _ => ([], .transportError)
  | LineItem.line s :: rest =>
    if pyStrip s = "" then streamDecodeAsync jl rest
    else
      let payload :=
        if pyStartsWith (pyStrip s) "data:" then pyStrip (pyDropChars (pyStrip s) 5)
        else pyStrip s
      if payload = "[DONE]" then ([], .done)
      else
        match jl payload with
        | none => streamDecodeAsync jl rest
        | some obj =>
          match ChatCompletionChunk.model_validate obj with
          | none => ([], .validationError obj)
          | some chunk =>
            let delta := match chunk.choices with
              | [] => none
              | ch0 :: _ =>
                match ch0.delta with
                | none => none
                | some d => d.content
            ({ delta := delta, choice_index := 0, raw := chunk } ::
               (streamDecodeAsync jl rest).1,
             (streamDecodeAsync jl rest).2)

/-- Classification of the decoder's treatment of a single line: skipped
(blank or JSON-decode failure), terminal sentinel, yields an event, or
aborts with a `ValidationError` on the decoded object. -/
inductive LineStep where
  | skip
  | sentinel
  | event (e : StreamEvent)
  | invalid (offending : Json)
deriving Repr

/-- What the decoder loop body does with one line. -/
def lineStep (jl : String → Option Json) (s : String) : LineStep :=
  if pyStrip s = "" then .skip
  else if framePayload s = "[DONE]" then .sentinel
  else
    match jl (framePayload s) with
    | none => .skip
    | some obj =>
      match ChatCompletionChunk.model_validate obj with
      | none => .invalid obj
      | some chunk => .event { delta := chunkDelta chunk, choice_index := 0, raw := chunk }

/-- The event a line contributes, if any. -/
def eventOf (jl : String → Option Json) (s : String) : Option StreamEvent :=
  match lineStep jl s with
  | .event e => some e
  | _ => none

/-- A line the decoder passes over without ending the stream: blank,
malformed JSON, or a valid frame. -/
def benignStep : LineStep → Bool
  | .skip => true
  | .event _ => true
  | _ => false

/-! ## Error mapping and constructor of `src/apertus/http.py` -/

/-- `ApertusAPIError` of `src/apertus/errors.py`.  The `message` slot is
typed `str` in the source but Python does not enforce it (the mapping
can store any value pulled out of the body), so it is carried as a
`Json` value here; a plain text message `m` is `Json.str m`. -/
structure ApertusAPIError where
  status_code : Nat
  message : Json
  url : Option String
  payload : Option Json
deriving Repr

/-- `SyncHTTP._raise_api_error` (http.py lines 53-60), used by the
blocking `get`/`post_json` calls (and, textually duplicated, by
`AsyncHTTP._raise_api_error`).  `text` is `r.text`; `parsed` is the
result of `r.json()` (`none` = the parse raised).  The `try` block also
catches the `AttributeError` of `data.get` on a non-dict body, in which
case `message` falls back to the raw text and the payload is dropped. -/
def raiseApiError (status : Nat) (text : String) (parsed : Option Json) (url : String) :
    ApertusAPIError :=
  match parsed with
  | none => ⟨status, .str text, some url, none⟩
  | some data =>
    match data.pyGet "error" with
    | none => ⟨status, .str text, some url, none⟩
    | some e =>
      if e.isTruthy then ⟨status, e, some url, some data⟩
      else
        match data.pyGet "message" with
        | none => ⟨status, .str text, some url, none⟩
        | some m =>
          if m.isTruthy then ⟨status, m, some url, some data⟩
          else ⟨status, .str text, some url, some data⟩

/-- `SyncHTTP._raise_api_error_object` (http.py lines 62-63). -/
def raiseApiErrorObject (status : Nat) (message : String) (url : Option String)
    (payload : Option Json) : ApertusAPIError :=
  ⟨status, .str message, url, payload⟩

/-- The non-2xx branch of `SyncHTTP.post_stream` (http.py lines 45-47):
the fully-drained body text is passed as the message and the *request*
JSON as the payload. -/
def postStreamError (status : Nat) (body : String) (url : String) (reqJson : Json) :
    ApertusAPIError :=
  raiseApiErrorObject status body (some url) (some reqJson)

/-- Python `a or b` on an optional string `a` (empty strings are
falsy). -/
def pyOrOpt (a b : Option String) : Option String :=
  match a with
  | some x => if x = "" then b else some x
  | none => b

/-- Python `a or d` with a string default. -/
def pyOrStr (a : Option String) (d : String) : String :=
  match a with
  | some x => if x = "" then d else x
  | none => d

/-- The state `_BaseHTTP.__init__` establishes on success. -/
structure BaseHTTPConfig where
  api_key : String
  base_url : String
  timeout : Int
deriving Repr, DecidableEq

/-- `_BaseHTTP.__init__` (http.py lines 12-17): resolve the bearer token
as `api_key or os.getenv("APERTUS_API_KEY")` and raise `ValueError` if
the result is falsy; otherwise store the token, the base URL with
trailing slashes stripped, and the timeout.  `envApiKey` models
`os.getenv("APERTUS_API_KEY")`.  No network I/O occurs: the embedding
is a pure function of its arguments. -/
def baseHTTPInit (api_key : Option String) (envApiKey : Option String)
    (base_url : String) (timeout : Int) : Except String BaseHTTPConfig :=
  match pyOrOpt api_key envApiKey with
  | none => .error "API key is required. Set APERTUS_API_KEY or pass api_key."
  | some k =>
    if k = "" then .error "API key is required. Set APERTUS_API_KEY or pass api_key."
    else .ok ⟨k, pyRStripChar base_url '/', timeout⟩

/-- `Apertus.__init__` (client.py lines 112-116): constructs a
`SyncHTTP`, whose `__init__` defers to `_BaseHTTP.__init__`, with
`base_url or "https://api.publicai.co"`. -/
def apertusInit (api_key : Option String) (envApiKey : Option String)
    (base_url : Option String) (timeout : Int) : Except String BaseHTTPConfig :=
  baseHTTPInit api_key envApiKey (pyOrStr base_url "https://api.publicai.co") timeout

/-- `AsyncApertus.__init__` (client.py lines 118-122): identical
construction over `AsyncHTTP`. -/
def asyncApertusInit (api_key : Option String) (envApiKey : Option String)
    (base_url : Option String) (timeout : Int) : Except String BaseHTTPConfig :=
  baseHTTPInit api_key envApiKey (pyOrStr base_url "https://api.publicai.co") timeout

/-! ## Request models of `src/apertus/types.py` and the payloads built
by `_ChatCompletions.create` / `_ChatCompletions.stream` -/

/-- The `role` literal of `ChatMessage`
(`Literal["system", "user", "assistant", "tool"]`). -/
inductive Role where
  | system
  | user
  | assistant
  | tool
deriving Repr, DecidableEq

/-- Serialization of a role literal. -/
def Role.toJson : Role → Json
  | .system => .str "system"
  | .user => .str "user"
  | .assistant => .str "assistant"
  | .tool => .str "tool"

/-- The `content` union of `ChatMessage`
(`Union[str, List[Dict[str, Any]]]`). -/
inductive MessageContent where
  | text (s : String)
  | parts (ps : List Json)
deriving Repr

/-- Serialization of a message content value. -/
def MessageContent.toJson : MessageContent → Json
  | .text s => .str s
  | .parts ps => .arr ps

/-- `ChatMessage` of `types.py`. -/
structure ChatMessage where
  role : Role
  content : MessageContent
  name : Option String
deriving Repr

/-- The `stop` union of `ChatCompletionRequest`
(`Union[str, List[str]]`). -/
inductive StopSpec where
  | one (s : String)
  | many (ss : List String)
deriving Repr, DecidableEq

/-- Serialization of a stop specification. -/
def StopSpec.toJson : StopSpec → Json
  | .one s => .str s
  | .many ss => .arr (ss.map Json.str)

/-- `ChatCompletionRequest` of `types.py` (lines 75-89): `model` and
`messages` required, everything else `Optional[...] = None`.
Float-typed fields are carried with an integer carrier (the client
never computes with them). -/
structure ChatCompletionRequest where
  model : String
  messages : List ChatMessage
  temperature : Option Int
  top_p : Option Int
  n : Option Int
  stream : Option Bool
  stop : Option StopSpec
  max_tokens : Option Int
  presence_penalty : Option Int
  frequency_penalty : Option Int
  logit_bias : Option (List (String × Int))
  user : Option String
  tools : Option (List Json)
  tool_choice : Option Json
deriving Repr

/-- One entry of a `model_dump(exclude_none=True)` result: a field
whose value is `None` contributes nothing, any other field contributes
its key/value pair. -/
def optEntry (k : String) : Option Json → List (String × Json)
  | none => []
  | some v => [(k, v)]

/-- `model_dump(exclude_none=True)` of a `ChatMessage`: `role` and
`content` always present, `name` omitted when `None`. -/
def ChatMessage.model_dump (m : ChatMessage) : Json :=
  .obj (("role", m.role.toJson) :: ("content", m.content.toJson) ::
    optEntry "name" (m.name.map Json.str))

/-- Serialization of a `logit_bias` mapping. -/
def logitBiasToJson (bias : List (String × Int)) : Json :=
  .obj (bias.map (fun kv => (kv.1, Json.num kv.2)))

/-- `ChatCompletionRequest(...).model_dump(exclude_none=True)` as
performed by `_ChatCompletions.create` / `.stream` (client.py lines
42 and 48): keys appear in declaration order, required fields always,
optional fields exactly when they are not `None`. -/
def ChatCompletionRequest.model_dump (r : ChatCompletionRequest) : List (String × Json) :=
  ("model", Json.str r.model) ::
  ("messages", Json.arr (r.messages.map ChatMessage.model_dump)) ::
  (optEntry "temperature" (r.temperature.map Json.num) ++
   (optEntry "top_p" (r.top_p.map Json.num) ++
    (optEntry "n" (r.n.map Json.num) ++
     (optEntry "stream" (r.stream.map Json.bool) ++
      (optEntry "stop" (r.stop.map StopSpec.toJson) ++
       (optEntry "max_tokens" (r.max_tokens.map Json.num) ++
        (optEntry "presence_penalty" (r.presence_penalty.map Json.num) ++
         (optEntry "frequency_penalty" (r.frequency_penalty.map Json.num) ++
          (optEntry "logit_bias" (r.logit_bias.map logitBiasToJson) ++
           (optEntry "user" (r.user.map Json.str) ++
            (optEntry "tools" (r.tools.map Json.arr) ++
             optEntry "tool_choice" r.tool_choice)))))))))))

/-- The serialized payload `_ChatCompletions.create` sends (client.py
line 42): the request as the caller built it, dumped with
`exclude_none=True`.  Nothing overrides the `stream` field. -/
def createPayload (r : ChatCompletionRequest) : List (String × Json) :=
  r.model_dump

/-- The serialized payload `_ChatCompletions.stream` sends (client.py
line 48): the caller's arguments with `stream` overridden to `True`
(`ChatCompletionRequest(**{**kwargs, "stream": True})`), dumped with
`exclude_none=True`. -/
def streamPayload (r : ChatCompletionRequest) : List (String × Json) :=
  ChatCompletionRequest.model_dump { r with stream := some true }

/-! ## Concrete data used to instantiate the theorems

`jlFix` is a concrete stand-in for `json.loads`, agreeing with the
Python decoder on the listed inputs (each key parses to exactly the
listed value; every other string used in the examples below is not
valid JSON, and `jlFix` rejects it). -/

/-- A streamed chunk frame carrying the delta text `"he"`. -/
def chunkTextW : String := "\x7b\"choices\":[\x7b\"index\":0,\"delta\":\x7b\"content\":\"he\"\x7d\x7d]\x7d"

/-- The parse of `chunkTextW`. -/
def chunkJsonW : Json :=
  .obj [("choices", .arr [.obj [("index", .num 0), ("delta", .obj [("content", .str "he")])]])]

/-- A valid JSON chunk object whose `choices` list is empty. -/
def emptyChoicesTextW : String := "\x7b\"choices\":[]\x7d"

/-- The parse of `emptyChoicesTextW`. -/
def emptyChoicesJsonW : Json := .obj [("choices", .arr [])]

/-- A valid JSON object that violates the chunk schema: no `choices`
key. -/
def noChoicesTextW : String := "\x7b\"id\":\"x\"\x7d"

/-- The parse of `noChoicesTextW`. -/
def noChoicesJsonW : Json := .obj [("id", .str "x")]

/-- Concrete `json.loads` table for the examples. -/
def jlFix : String → Option Json := fun s =>
  List.lookup s [(chunkTextW, chunkJsonW), (emptyChoicesTextW, emptyChoicesJsonW),
    (noChoicesTextW, noChoicesJsonW), ("5", Json.num 5)]

/-- The chunk `chunkJsonW` validates to. -/
def chunkW : ChatCompletionChunk :=
  ⟨none, none, none, none, [⟨0, none, none, some ⟨none, some "he"⟩⟩]⟩

/-- The event the decoder emits for `chunkTextW`. -/
def eventW : StreamEvent := ⟨some "he", 0, chunkW⟩

/-- The 401 body of the spec's concrete scenario C. -/
def body401W : String := "\x7b\"error\":\"invalid api key\"\x7d"

/-- The parse (`r.json()` / `json.loads`) of `body401W`. -/
def parsed401W : Json := .obj [("error", .str "invalid api key")]

/-- A request URL for the error-mapping examples. -/
def urlW : String := "https://api.publicai.co/v1/chat/completions"

/-- The error `_raise_api_error` produces for scenario C: HTTP 401 with
body `body401W`. -/
def err401W : ApertusAPIError := raiseApiError 401 body401W (some parsed401W) urlW

/-- A request whose caller explicitly passed `stream=True` to
`chat.completions.create`. -/
def reqStreamTrueW : ChatCompletionRequest :=
  { model := "test", messages := [⟨Role.user, MessageContent.text "hi", none⟩],
    temperature := none, top_p := none, n := none, stream := some true, stop := none,
    max_tokens := none, presence_penalty := none, frequency_penalty := none,
    logit_bias := none, user := none, tools := none, tool_choice := none }

/-! ## Helper lemmas -/

/-- The decoder loop body acts on one line exactly as `lineStep`
classifies it. -/
theorem streamDecode_cons (jl : String → Option Json) (s : String) (rest : List LineItem) :
    streamDecode jl (LineItem.line s :: rest) =
      match lineStep jl s with
      | .skip => streamDecode jl rest
      | .sentinel => ([], .done)
      | .invalid j => ([], .validationError j)
      | .event e => (e :: (streamDecode jl rest).1, (streamDecode jl rest).2) := by
  by_cases h1 : pyStrip s = ""
  · simp [streamDecode, lineStep, h1]
  · by_cases h2 : framePayload s = "[DONE]"
    · simp [streamDecode, lineStep, h1, h2]
    · cases h3 : jl (framePayload s) with
      | none => simp [streamDecode, lineStep, h1, h2, h3]
      | some obj =>
        cases h4 : ChatCompletionChunk.model_validate obj with
        | none => simp [streamDecode, lineStep, h1, h2, h3, h4]
        | some chunk => simp [streamDecode, lineStep, h1, h2, h3, h4]

/-- Over a run of benign lines (blank, malformed, or valid frames) the
decoder emits exactly the events of those lines, in order, and
continues into the remaining input. -/
theorem streamDecode_benign (jl : String → Option Json) (ws : List String) (rest : List LineItem)
    (hw : ∀ l ∈ ws, benignStep (lineStep jl l) = true) :
    streamDecode jl (ws.map LineItem.line ++ rest) =
      (ws.filterMap (eventOf jl) ++ (streamDecode jl rest).1, (streamDecode jl rest).2) := by
  induction ws with
  | nil => simp
  | cons l ls ih =>
    have hl := hw l (List.mem_cons_self l ls)
    have hls : ∀ x ∈ ls, benignStep (lineStep jl x) = true :=
      fun x hx => hw x (List.mem_cons_of_mem l hx)
    simp only [List.map_cons, List.cons_append, List.filterMap_cons]
    rw [streamDecode_cons]
    cases hstep : lineStep jl l with
    | skip => simp [eventOf, hstep, ih hls]
    | sentinel => rw [hstep] at hl; simp [benignStep] at hl
    | invalid j => rw [hstep] at hl; simp [benignStep] at hl
    | event e => simp [eventOf, hstep, ih hls]

/-- Lookup skips a dumped optional field with a different key. -/
theorem lookup_optEntry_ne (k k2 : String) (v : Option Json) (rest : List (String × Json))
    (h : ¬ k = k2) :
    List.lookup k (optEntry k2 v ++ rest) = List.lookup k rest := by
  have hb : (k == k2) = false := by simp [h]
  cases v <;> simp [optEntry, List.lookup, hb]

/-- Lookup finds a dumped optional field with its own key, given the
key does not recur later. -/
theorem lookup_optEntry_eq (k : String) (v : Option Json) (rest : List (String × Json))
    (h : List.lookup k rest = none) :
    List.lookup k (optEntry k v ++ rest) = v := by
  have hb : (k == k) = true := by simp
  cases v <;> simp [optEntry, List.lookup, hb, h]

/-- Lookup misses a single dumped optional field with a different
key. -/
theorem lookup_optEntry_one_ne (k k2 : String) (v : Option Json) (h : ¬ k = k2) :
    List.lookup k (optEntry k2 v) = none := by
  have hb : (k == k2) = false := by simp [h]
  cases v <;> simp [optEntry, List.lookup, hb]

/-- Lookup on a single dumped optional field with its own key. -/
theorem lookup_optEntry_one_eq (k : String) (v : Option Json) :
    List.lookup k (optEntry k v) = v := by
  have hb : (k == k) = true := by simp
  cases v <;> simp [optEntry, List.lookup, hb]

/-! ## Claim theorems -/

/-- C1: for every input of raw lines made of N frames that decode as
valid JSON chunk objects and M malformed frames interleaved in any
order (`hw`: each line is skipped or yields an event), followed by a
terminal sentinel line and then arbitrary further items, the decoder
of `chat.completions.stream` yields exactly the events of those frames
in source order (`ws.filterMap (eventOf jl)`), ends cleanly, and its
result does not depend on anything after the sentinel line. -/
theorem stream_decoder_events_and_sentinel (jl : String → Option Json) (ws : List String)
    (sentinelLine : String) (post : List LineItem)
    (hw : ∀ l ∈ ws, benignStep (lineStep jl l) = true)
    (hs : lineStep jl sentinelLine = .sentinel) :
    streamDecode jl (ws.map LineItem.line ++ LineItem.line sentinelLine :: post) =
      (ws.filterMap (eventOf jl), .done) := by
  rw [streamDecode_benign jl ws _ hw, streamDecode_cons, hs]
  simp

/-- C1 witness: a valid frame and a malformed keepalive line, then the
sentinel, then a transport failure that is never reached; exactly one
event is yielded. -/
theorem stream_decoder_events_and_sentinel_witness :
    (∀ l ∈ ["data: " ++ chunkTextW, "keepalive"], benignStep (lineStep jlFix l) = true) ∧
    lineStep jlFix "data: [DONE]" = .sentinel ∧
    streamDecode jlFix
        (["data: " ++ chunkTextW, "keepalive"].map LineItem.line ++
          LineItem.line "data: [DONE]" :: [LineItem.fail]) =
      (["data: " ++ chunkTextW, "keepalive"].filterMap (eventOf jlFix), .done) ∧
    ["data: " ++ chunkTextW, "keepalive"].filterMap (eventOf jlFix) = [eventW] :=
  ⟨by decide, rfl,
   stream_decoder_events_and_sentinel jlFix ["data: " ++ chunkTextW, "keepalive"]
     "data: [DONE]" [LineItem.fail] (by decide) rfl,
   rfl⟩

/-- C2 counterexample: for the same 401 status and the same body
`{"error":"invalid api key"}`, the blocking path maps the message to
`"invalid api key"` with the parsed body as payload, while the
streaming-open path keeps the raw body text as the message and
attaches the request JSON as payload — the two ApiErrors differ. -/
theorem error_mapping_paths_differ :
    (raiseApiError 401 body401W (some parsed401W) urlW).message = Json.str "invalid api key" ∧
    (postStreamError 401 body401W urlW (Json.obj [])).message = Json.str body401W ∧
    ¬ (raiseApiError 401 body401W (some parsed401W) urlW).message =
        (postStreamError 401 body401W urlW (Json.obj [])).message ∧
    (raiseApiError 401 body401W (some parsed401W) urlW).payload = some parsed401W ∧
    (postStreamError 401 body401W urlW (Json.obj [])).payload = some (Json.obj []) := by
  refine ⟨rfl, rfl, ?_, rfl, rfl⟩
  show ¬ Json.str "invalid api key" = Json.str body401W
  simp [body401W]

/-- C2 amended: the JSON mapping (message from `payload.error`, parsed
body as payload) is applied only by the blocking non-stream calls; a
failure detected when opening a streaming POST instead produces an
ApiError whose message is always the raw body text and whose payload
is the request JSON, so the two paths agree on status code and URL but
not, in general, on message or payload. -/
theorem error_mapping_per_path (status : Nat) (body : String) (url : String) (reqJson : Json)
    (fields : List (String × Json)) (e : String)
    (he : fields.lookup "error" = some (Json.str e)) (hne : ¬ e = "") :
    raiseApiError status body (some (Json.obj fields)) url =
      ⟨status, Json.str e, some url, some (Json.obj fields)⟩ ∧
    postStreamError status body url reqJson =
      ⟨status, Json.str body, some url, some reqJson⟩ := by
  constructor
  · simp [raiseApiError, Json.pyGet, he, Json.isTruthy, hne]
  · rfl

/-- C2 amended witness: the scenario-C response on both paths. -/
theorem error_mapping_per_path_witness :
    raiseApiError 401 body401W (some (Json.obj [("error", Json.str "invalid api key")])) urlW =
      ⟨401, Json.str "invalid api key", some urlW,
        some (Json.obj [("error", Json.str "invalid api key")])⟩ ∧
    postStreamError 401 body401W urlW (Json.obj []) =
      ⟨401, Json.str body401W, some urlW, some (Json.obj [])⟩ :=
  error_mapping_per_path 401 body401W urlW (Json.obj [])
    [("error", Json.str "invalid api key")] "invalid api key" rfl (by decide)

/-- C3 counterexample: the frame `data: {"choices":[]}` decodes to a
valid JSON chunk whose `choices` list is empty, yet the decoder emits
one `StreamEvent` for it (with no delta) — the frame is not dropped. -/
theorem empty_choices_counterexample :
    jlFix (framePayload ("data: " ++ emptyChoicesTextW)) = some emptyChoicesJsonW ∧
    ChatCompletionChunk.model_validate emptyChoicesJsonW = some ⟨none, none, none, none, []⟩ ∧
    streamDecode jlFix [LineItem.line ("data: " ++ emptyChoicesTextW)] =
      ([⟨none, 0, ⟨none, none, none, none, []⟩⟩], .done) :=
  ⟨rfl, rfl, rfl⟩

/-- C3 amended: a streamed frame that decodes to a valid JSON chunk
whose `choices` list is empty is not dropped — the decoder emits a
`StreamEvent` for it whose `delta` is absent and whose `raw` is the
chunk, and continues with the rest of the stream. -/
theorem empty_choices_emits_event (jl : String → Option Json) (s : String) (j : Json)
    (chunk : ChatCompletionChunk) (rest : List LineItem)
    (hblank : ¬ pyStrip s = "")
    (hsent : ¬ framePayload s = "[DONE]")
    (hjson : jl (framePayload s) = some j)
    (hval : ChatCompletionChunk.model_validate j = some chunk)
    (hemp : chunk.choices = []) :
    streamDecode jl (LineItem.line s :: rest) =
      ({ delta := none, choice_index := 0, raw := chunk } :: (streamDecode jl rest).1,
       (streamDecode jl rest).2) := by
  have hstep : lineStep jl s = .event ⟨chunkDelta chunk, 0, chunk⟩ := by
    simp [lineStep, hblank, hsent, hjson, hval]
  rw [streamDecode_cons, hstep]
  simp [chunkDelta, hemp]

/-- C3 amended witness: the concrete empty-choices frame yields exactly
one delta-free event. -/
theorem empty_choices_emits_event_witness :
    streamDecode jlFix [LineItem.line ("data: " ++ emptyChoicesTextW)] =
      ({ delta := none, choice_index := 0, raw := ⟨none, none, none, none, []⟩ } ::
         (streamDecode jlFix []).1,
       (streamDecode jlFix []).2) :=
  empty_choices_emits_event jlFix ("data: " ++ emptyChoicesTextW) emptyChoicesJsonW
    ⟨none, none, none, none, []⟩ [] (by decide) (by decide) rfl rfl rfl

/-- C4 counterexample: a `create` call whose caller passed
`stream=True` serializes `stream: true` — `create` does not force the
flag to false/absent. -/
theorem create_stream_passthrough_counterexample :
    List.lookup "stream" (createPayload reqStreamTrueW) = some (Json.bool true) ∧
    ¬ Json.bool true = Json.bool false := by
  exact ⟨rfl, by simp⟩

/-- C4 amended: `create` serializes the `stream` flag exactly as the
caller set it — absent when unset, and `true` when the caller passed
`stream=True` — while `stream` always overrides it and sends
`stream: true`. -/
theorem stream_flag_serialization (r : ChatCompletionRequest) :
    List.lookup "stream" (createPayload r) = r.stream.map Json.bool ∧
    List.lookup "stream" (streamPayload r) = some (Json.bool true) := by
  constructor
  · simp [createPayload, ChatCompletionRequest.model_dump, List.lookup, lookup_optEntry_ne,
      lookup_optEntry_eq, lookup_optEntry_one_ne, lookup_optEntry_one_eq]
  · simp [streamPayload, ChatCompletionRequest.model_dump, List.lookup, lookup_optEntry_ne,
      lookup_optEntry_eq, lookup_optEntry_one_ne, lookup_optEntry_one_eq]

/-- C5: a frame that is valid JSON but violates the chunk schema (the
decoded object fails `ChatCompletionChunk.model_validate`) aborts the
stream with a validation error that propagates to the caller, after
the events of the preceding benign lines; nothing after it is
consumed. -/
theorem schema_violation_propagates (jl : String → Option Json) (ws : List String)
    (badLine : String) (j : Json) (rest : List LineItem)
    (hw : ∀ l ∈ ws, benignStep (lineStep jl l) = true)
    (hbad : lineStep jl badLine = .invalid j) :
    streamDecode jl (ws.map LineItem.line ++ LineItem.line badLine :: rest) =
      (ws.filterMap (eventOf jl), .validationError j) := by
  rw [streamDecode_benign jl ws _ hw, streamDecode_cons, hbad]
  simp

/-- C5 witness: the JSON object `{"id":"x"}` (no `choices` key) ends
the stream with a validation error; a non-object JSON value is also a
validation error. -/
theorem schema_violation_propagates_witness :
    lineStep jlFix ("data: " ++ noChoicesTextW) = .invalid noChoicesJsonW ∧
    streamDecode jlFix [LineItem.line ("data: " ++ noChoicesTextW), LineItem.line "x"] =
      ([], .validationError noChoicesJsonW) ∧
    ChatCompletionChunk.model_validate (Json.num 5) = none :=
  ⟨rfl,
   by
     have h := schema_violation_propagates jlFix [] ("data: " ++ noChoicesTextW) noChoicesJsonW
       [LineItem.line "x"] (by simp) rfl
     simpa using h,
   rfl⟩

/-- C6: in the serialized request payload, the required fields are
always present with the caller's values, and each optional field is
present exactly when the caller set it, carrying the value the caller
gave (an unset optional field contributes no key at all, never a
null). -/
theorem request_serialization_exclude_none (r : ChatCompletionRequest) :
    List.lookup "model" r.model_dump = some (Json.str r.model) ∧
    List.lookup "messages" r.model_dump =
      some (Json.arr (r.messages.map ChatMessage.model_dump)) ∧
    List.lookup "temperature" r.model_dump = r.temperature.map Json.num ∧
    List.lookup "top_p" r.model_dump = r.top_p.map Json.num ∧
    List.lookup "n" r.model_dump = r.n.map Json.num ∧
    List.lookup "stream" r.model_dump = r.stream.map Json.bool ∧
    List.lookup "stop" r.model_dump = r.stop.map StopSpec.toJson ∧
    List.lookup "max_tokens" r.model_dump = r.max_tokens.map Json.num ∧
    List.lookup "presence_penalty" r.model_dump = r.presence_penalty.map Json.num ∧
    List.lookup "frequency_penalty" r.model_dump = r.frequency_penalty.map Json.num ∧
    List.lookup "logit_bias" r.model_dump = r.logit_bias.map logitBiasToJson ∧
    List.lookup "user" r.model_dump = r.user.map Json.str ∧
    List.lookup "tools" r.model_dump = r.tools.map Json.arr ∧
    List.lookup "tool_choice" r.model_dump = r.tool_choice := by
  refine ⟨?_, ?_, ?_, ?_, ?_, ?_, ?_, ?_, ?_, ?_, ?_, ?_, ?_, ?_⟩ <;>
    simp [ChatCompletionRequest.model_dump, List.lookup, lookup_optEntry_ne,
      lookup_optEntry_eq, lookup_optEntry_one_ne, lookup_optEntry_one_eq]

/-- C7: the blocking decoder loop of `_ChatCompletions.stream` and the
concurrent decoder loop of `_AsyncChatCompletions.stream` produce the
same event sequence and end the same way on every input. -/
theorem sync_async_stream_equivalent (jl : String → Option Json) (items : List LineItem) :
    streamDecode jl items = streamDecodeAsync jl items := by
  induction items with
  | nil => rfl
  | cons it rest ih =>
    cases it with
    | fail => rfl
    | line s =>
      simp only [streamDecode, streamDecodeAsync, framePayload, chunkDelta, ih]

/-- C8: if the line source yields two lines that decode to valid frames
and then raises, the caller observes exactly the two events and then
the transport error propagates. -/
theorem transport_error_after_two_events (jl : String → Option Json) (l1 l2 : String)
    (e1 e2 : StreamEvent)
    (h1 : lineStep jl l1 = .event e1) (h2 : lineStep jl l2 = .event e2) :
    streamDecode jl [LineItem.line l1, LineItem.line l2, LineItem.fail] =
      ([e1, e2], .transportError) := by
  simp only [streamDecode_cons, h1, h2]
  rfl

/-- C8 witness: two concrete valid frames before the failure. -/
theorem transport_error_after_two_events_witness :
    streamDecode jlFix
        [LineItem.line ("data: " ++ chunkTextW), LineItem.line ("data: " ++ chunkTextW),
         LineItem.fail] = ([eventW, eventW], .transportError) :=
  transport_error_after_two_events jlFix ("data: " ++ chunkTextW) ("data: " ++ chunkTextW)
    eventW eventW rfl rfl

/-- C9: an HTTP 401 response whose body is `{"error":"invalid api key"}`
is mapped by `_raise_api_error` to an error with `status_code == 401`
and `message == "invalid api key"`. -/
theorem error_401_scenario :
    err401W.status_code = 401 ∧ err401W.message = Json.str "invalid api key" :=
  ⟨rfl, rfl⟩

/-- C10: construction of the HTTP transport — and hence of `Apertus`
and `AsyncApertus`, which build it in their constructors — fails (a
`ValueError`, before any network I/O: the embedded constructor is a
pure function) exactly when the explicit `api_key` argument is absent
or empty and the `APERTUS_API_KEY` environment variable is unset or
empty; otherwise construction succeeds. -/
theorem constructor_requires_key (api_key envApiKey : Option String) (base_url : String)
    (base_url_arg : Option String) (timeout : Int) :
    ((∃ msg, baseHTTPInit api_key envApiKey base_url timeout = .error msg) ↔
      ((api_key = none ∨ api_key = some "") ∧ (envApiKey = none ∨ envApiKey = some ""))) ∧
    ((∃ msg, apertusInit api_key envApiKey base_url_arg timeout = .error msg) ↔
      ((api_key = none ∨ api_key = some "") ∧ (envApiKey = none ∨ envApiKey = some ""))) ∧
    ((∃ msg, asyncApertusInit api_key envApiKey base_url_arg timeout = .error msg) ↔
      ((api_key = none ∨ api_key = some "") ∧ (envApiKey = none ∨ envApiKey = some ""))) := by
  have key : ∀ bu : String,
      (∃ msg, baseHTTPInit api_key envApiKey bu timeout = .error msg) ↔
        ((api_key = none ∨ api_key = some "") ∧ (envApiKey = none ∨ envApiKey = some "")) := by
    intro bu
    rcases api_key with _ | k
    · rcases envApiKey with _ | e
      · simp [baseHTTPInit, pyOrOpt]
      · by_cases he : e = "" <;> simp [baseHTTPInit, pyOrOpt, he]
    · by_cases hk : k = ""
      · subst hk
        rcases envApiKey with _ | e
        · simp [baseHTTPInit, pyOrOpt]
        · by_cases he : e = "" <;> simp [baseHTTPInit, pyOrOpt, he]
      · simp [baseHTTPInit, pyOrOpt, hk]
  exact ⟨key base_url, key _, key _⟩
